import Mathlib

/-
Verification of the Gujarati newspaper tagger (src/streamlit_app.py).

The app is a single Streamlit page: it keeps a cache of GPT-4-Vision
responses keyed by the composite string "<pdf path>_<tag>", persisted as a
UTF-8 JSON object in data/processed_cache.json, and on a search-button
press runs each selected PDF page-by-page through the hosted vision API.

The shallow embedding below models the program state (session_state caches,
the cache file's content, the data directory, the error banners emitted via
st.error) as an explicit record `Sys`, and the external world (fitz.open,
page rasterisation, base64 encoding, the hosted chat API) as an oracle
record `Env`.  Python exceptions are `Except.error` values; every function
of the source that catches them is translated with the same catch points.
Instrumentation counters (apiCalls, cacheReads, pdfCalls) count the
network requests, cache-file reads and process_pdf invocations.
-/

namespace GujPaperTagger

/-- JSON values of the subset Python's json module reads and writes for the
cache file: the file holds an object whose values are strings; other shapes
are representable so that a malformed file can be talked about. -/
inductive Json where
  | str : String → Json
  | obj : List (String × Json) → Json
  | null : Json

/-- The cache mapping, `st.session_state.processed_cache`: a Python dict
from composite keys to response strings, modelled as an association list
in insertion order (Python dicts preserve insertion order). -/
abbrev Cache := List (String × String)

/-- Python `key in d` / `d[key]`: the value at the first matching key. -/
def Cache.lookup : Cache → String → Option String
  | [], _ => none
  | (k, v) :: rest, key => if k = key then some v else Cache.lookup rest key

/-- Python `d[key] = value`: replace in place when the key is present,
otherwise append at the end. -/
def Cache.insert : Cache → String → String → Cache
  | [], key, value => [(key, value)]
  | (k, v) :: rest, key, value =>
      if k = key then (key, value) :: rest
      else (k, v) :: Cache.insert rest key value

/-- Serialisation done by `json.dump(st.session_state.processed_cache, f)`:
the dict becomes a JSON object whose values are JSON strings. -/
def encodeCache (c : Cache) : Json :=
  Json.obj (c.map (fun kv => (kv.1, Json.str kv.2)))

/-- Reading back the entries of a JSON object as a string-to-string dict;
`none` when some value is not a string (the file was not a cache dump). -/
def decodeEntries : List (String × Json) → Option Cache
  | [] => some []
  | (k, Json.str v) :: rest => (decodeEntries rest).map (fun c => (k, v) :: c)
  | _ => none

/-- Reading a JSON value back as the cache dict (`json.load`):
`none` when the value is not an object of strings. -/
def decodeCache : Json → Option Cache
  | Json.obj l => decodeEntries l
  | _ => none

/-- The program state: Streamlit session state, the cache file, the data
directory, the banners shown with st.error, and instrumentation counters. -/
structure Sys where
  processed_cache : Cache
  indexed_files : List (String × String)
  cacheFile : Option Json
  dataDirExists : Bool
  dataDirPdfs : List String
  banners : List String
  apiCalls : Nat
  cacheReads : Nat
  pdfCalls : Nat

/-- The external world: fitz.open (a document is its list of pages),
page rasterisation, base64 encoding of the rendered JPEG, and the hosted
chat completion API, which may raise, or answer with an optional message
content.  Pages and images are abstract identifiers. -/
structure Env where
  openDoc : String → Except String (List Nat)
  convert : Nat → Except String Nat
  encode : Nat → String
  api : String → String → Except String (Option String)

/-- Source lines 32-37, load_cache: parse the cache file when it exists,
return the empty dict when it does not; `none` means the existing file did
not hold a string-to-string object. -/
def load_cache_val (file : Option Json) : Option Cache :=
  match file with
  | some j => decodeCache j
  | none => some []

/-- Source lines 39-43, save_cache: `os.makedirs(DATA_DIR, exist_ok=True)`
then overwrite the cache file with the JSON dump of the in-memory cache. -/
def save_cache (s : Sys) : Sys :=
  { s with dataDirExists := true,
           cacheFile := some (encodeCache s.processed_cache) }

/-- Source line 114: the composite cache key `f"{pdf_path}_{tag}"`. -/
def cache_key (pdf_path tag : String) : String :=
  pdf_path ++ "_" ++ tag

/-- Source lines 57-96, process_image_with_gpt4_vision: encode the image,
issue one chat completion request; on an API exception show an st.error
banner with the exception text and return None, else return the message
content (which the API may leave empty). -/
def process_image_with_gpt4_vision (env : Env) (image : Nat) (tag : String)
    (s : Sys) : Option String × Sys :=
  let base64_image := env.encode image
  match env.api base64_image tag with
  | Except.ok content => (content, { s with apiCalls := s.apiCalls + 1 })
  | Except.error e =>
      (none, { s with apiCalls := s.apiCalls + 1,
                      banners := s.banners ++
                        ["Error in GPT-4 Vision processing: " ++ e] })

/-- Source lines 122-135, the page loop of process_pdf: rasterise each page
(a conversion exception propagates out of the loop), call the vision API,
and append the result to all_results when it is truthy (non-None and
non-empty, Python `if result:`). -/
def processPages (env : Env) (tag : String) :
    List Nat → List String → Sys → Except String (List String) × Sys
  | [], acc, s => (Except.ok acc, s)
  | page :: rest, acc, s =>
    match env.convert page with
    | Except.error e => (Except.error e, s)
    | Except.ok image =>
      let rs := process_image_with_gpt4_vision env image tag s
      let acc' := match rs.1 with
        | some r => if r = "" then acc else acc ++ [r]
        | none => acc
      processPages env tag rest acc' rs.2

/-- Source lines 110-148, process_pdf: return the cached response on a
cache hit; otherwise open the document (lines 118-137), process every page,
join the collected results with newlines, store the joined string in the
cache, persist the cache to disk and return the string; any exception is
caught and surfaced as an st.error banner, returning None.  The pdfCalls
counter counts invocations of this function. -/
def process_pdf (env : Env) (pdf_path tag : String) (s0 : Sys) :
    Option String × Sys :=
  let s := { s0 with pdfCalls := s0.pdfCalls + 1 }
  match Cache.lookup s.processed_cache (cache_key pdf_path tag) with
  | some v => (some v, s)
  | none =>
    match env.openDoc pdf_path with
    | Except.error e =>
        (none, { s with banners := s.banners ++
                          ["Error in PDF processing: " ++ e] })
    | Except.ok pages =>
      match processPages env tag pages [] s with
      | (Except.error e, s') =>
          (none, { s' with banners := s'.banners ++
                             ["Error in PDF processing: " ++ e] })
      | (Except.ok results, s') =>
          let final_result := String.intercalate "\n" results
          let newCache :=
            Cache.insert s'.processed_cache (cache_key pdf_path tag) final_result
          let s'' := save_cache { s' with processed_cache := newCache }
          (some final_result, s'')

/-- One iteration of the indexing loop of index_pdf_files (lines 106-108):
record the file name when it is not yet indexed. -/
def indexStep (st : Sys) (name : String) : Sys :=
  if (Cache.lookup st.indexed_files name).isSome then st
  else { st with indexed_files := st.indexed_files ++ [(name, "data/" ++ name)] }

/-- Source lines 98-108, index_pdf_files: when the data directory is
missing, create it and return (no message is shown); otherwise record every
listed PDF file name not yet indexed, mapping it to its path under data/. -/
def index_pdf_files (s : Sys) : Sys :=
  if s.dataDirExists = false then { s with dataDirExists := true }
  else s.dataDirPdfs.foldl indexStep s

/-- Source lines 150-155, the start of main: load the cache from disk into
session state (one read of the cache file), then index the PDF files.  A
cache file that exists but does not hold a string-to-string object is read
as the empty dict here; the claims do not depend on that corner. -/
def startup (s : Sys) : Sys :=
  index_pdf_files
    { s with processed_cache := (load_cache_val s.cacheFile).getD [],
             cacheReads := s.cacheReads + 1 }

/-- Python `str(KeyError(k))`: the missing key in single quotes. -/
def keyErrorStr (k : String) : String :=
  String.singleton (Char.ofNat 39) ++ k ++ String.singleton (Char.ofNat 39)

/-- Source lines 184-203, the loop over the selected files inside the outer
try: look the file name up in indexed_files (a missing name raises KeyError,
caught at lines 205-206 with an "An error occurred" banner that aborts the
loop), run process_pdf, and on a falsy result show the "No relevant news
found" banner. -/
def searchLoop (env : Env) (tag : String) : List String → Sys → Sys
  | [], s => s
  | filename :: rest, s =>
    match Cache.lookup s.indexed_files filename with
    | none =>
        { s with banners := s.banners ++
                   ["An error occurred: " ++ keyErrorStr filename] }
    | some pdf_path =>
      let rs := process_pdf env pdf_path tag s
      let s' := match rs.1 with
        | some r =>
            if r = "" then
              { rs.2 with banners := rs.2.banners ++
                            ["No relevant news found in " ++ filename ++ "."] }
            else rs.2
        | none =>
            { rs.2 with banners := rs.2.banners ++
                          ["No relevant news found in " ++ filename ++ "."] }
      searchLoop env tag rest s'

/-- Source lines 175-206, the search-button handler: reject an empty file
selection, then an empty search tag, each with an st.error banner; only
then enter the processing loop. -/
def search_button (env : Env) (selected_files : List String)
    (search_tag : String) (s : Sys) : Sys :=
  if selected_files = [] then
    { s with banners := s.banners ++ ["Please select at least one file!"] }
  else if search_tag = "" then
    { s with banners := s.banners ++ ["Please enter a search tag!"] }
  else searchLoop env search_tag selected_files s

/-- The value process_image_with_gpt4_vision returns for a given image and
tag (it does not depend on the state): the API answer content, or None when
the API raised. -/
def visionResult (env : Env) (image : Nat) (tag : String) : Option String :=
  match env.api (env.encode image) tag with
  | Except.ok content => content
  | Except.error _ => none

/-- The per-page text responses a run over the given pages collects: the
truthy (non-None, non-empty) vision results, in page order. -/
def pageTexts (env : Env) (tag : String) (pages : List Nat) : List String :=
  pages.filterMap (fun page =>
    match env.convert page with
    | Except.ok image =>
      match visionResult env image tag with
      | some r => if r = "" then none else some r
      | none => none
    | Except.error _ => none)

/-- The st.error banners the page loop emits: one per page whose API call
raised. -/
def pageBanners (env : Env) (tag : String) (pages : List Nat) : List String :=
  pages.filterMap (fun page =>
    match env.convert page with
    | Except.ok image =>
      match env.api (env.encode image) tag with
      | Except.error e => some ("Error in GPT-4 Vision processing: " ++ e)
      | Except.ok _ => none
    | Except.error _ => none)

/-- The state process_pdf leaves behind after a cache miss in which opening
succeeded and every page conversion succeeded. -/
def missState (env : Env) (pdf_path tag : String) (s : Sys)
    (pages : List Nat) : Sys :=
  let final_result := String.intercalate "\n" (pageTexts env tag pages)
  let newCache :=
    Cache.insert s.processed_cache (cache_key pdf_path tag) final_result
  { processed_cache := newCache,
    indexed_files := s.indexed_files,
    cacheFile := some (encodeCache newCache),
    dataDirExists := true,
    dataDirPdfs := s.dataDirPdfs,
    banners := s.banners ++ pageBanners env tag pages,
    apiCalls := s.apiCalls + pages.length,
    cacheReads := s.cacheReads,
    pdfCalls := s.pdfCalls + 1 }

theorem Cache.lookup_insert_self (c : Cache) (k v : String) :
    Cache.lookup (Cache.insert c k v) k = some v := by
  induction c with
  | nil => simp [Cache.insert, Cache.lookup]
  | cons kv rest ih =>
    by_cases h : kv.1 = k
    · simp [Cache.insert, Cache.lookup, h]
    · simp [Cache.insert, Cache.lookup, h, ih]

theorem decodeEntries_map_encode (c : Cache) :
    decodeEntries (c.map (fun kv => (kv.1, Json.str kv.2))) = some c := by
  induction c with
  | nil => rfl
  | cons kv rest ih => simp [decodeEntries, ih]

theorem decode_encode (c : Cache) : decodeCache (encodeCache c) = some c := by
  simp [decodeCache, encodeCache, decodeEntries_map_encode]

theorem processPages_ok (env : Env) (tag : String) :
    ∀ (pages : List Nat) (acc : List String) (s : Sys),
      (∀ page ∈ pages, (env.convert page).isOk) →
      processPages env tag pages acc s =
        (Except.ok (acc ++ pageTexts env tag pages),
         { s with apiCalls := s.apiCalls + pages.length,
                  banners := s.banners ++ pageBanners env tag pages }) := by
  intro pages
  induction pages with
  | nil =>
    intro acc s _
    simp [processPages, pageTexts, pageBanners]
  | cons page rest ih =>
    intro acc s h
    have hhead := h page (List.mem_cons_self page rest)
    have htail : ∀ p ∈ rest, (env.convert p).isOk :=
      fun p hp => h p (List.mem_cons_of_mem page hp)
    cases hconv : env.convert page with
    | error e => rw [hconv] at hhead; simp [Except.isOk, Except.toBool] at hhead
    | ok image =>
      simp only [processPages, hconv, process_image_with_gpt4_vision]
      cases hapi : env.api (env.encode image) tag with
      | ok content =>
        simp only [hapi]
        rw [ih _ _ htail]
        cases content with
        | none =>
          simp [pageTexts, pageBanners, List.filterMap_cons, hconv, hapi,
                visionResult, Nat.add_assoc, Nat.add_comm 1 rest.length]
        | some r =>
          by_cases hr : r = ""
          · simp [pageTexts, pageBanners, List.filterMap_cons, hconv, hapi,
                  visionResult, hr, Nat.add_assoc, Nat.add_comm 1 rest.length]
          · simp [pageTexts, pageBanners, List.filterMap_cons, hconv, hapi,
                  visionResult, hr, Nat.add_assoc, Nat.add_comm 1 rest.length]
      | error e =>
        simp only [hapi]
        rw [ih _ _ htail]
        simp [pageTexts, pageBanners, List.filterMap_cons, hconv, hapi,
              visionResult, Nat.add_assoc, Nat.add_comm 1 rest.length,
              List.append_assoc]

theorem process_pdf_hit (env : Env) (pdf_path tag : String) (s : Sys)
    (v : String)
    (h : Cache.lookup s.processed_cache (cache_key pdf_path tag) = some v) :
    process_pdf env pdf_path tag s = (some v, { s with pdfCalls := s.pdfCalls + 1 }) := by
  simp [process_pdf, h]

theorem process_pdf_miss_ok (env : Env) (pdf_path tag : String) (s : Sys)
    (pages : List Nat)
    (hmiss : Cache.lookup s.processed_cache (cache_key pdf_path tag) = none)
    (hopen : env.openDoc pdf_path = Except.ok pages)
    (hconv : ∀ page ∈ pages, (env.convert page).isOk) :
    process_pdf env pdf_path tag s =
      (some (String.intercalate "\n" (pageTexts env tag pages)),
       missState env pdf_path tag s pages) := by
  simp only [process_pdf, hmiss, hopen]
  rw [processPages_ok env tag pages [] _ hconv]
  simp [missState, save_cache]

theorem processPages_cache_frame (env : Env) (tag : String) :
    ∀ (pages : List Nat) (acc : List String) (s : Sys),
      (processPages env tag pages acc s).2.processed_cache = s.processed_cache ∧
      (processPages env tag pages acc s).2.cacheFile = s.cacheFile := by
  intro pages
  induction pages with
  | nil => intro acc s; exact ⟨rfl, rfl⟩
  | cons page rest ih =>
    intro acc s
    cases hconv : env.convert page with
    | error e => simp [processPages, hconv]
    | ok image =>
      cases hapi : env.api (env.encode image) tag with
      | ok content =>
        simp [processPages, hconv, process_image_with_gpt4_vision, hapi, ih]
      | error e =>
        simp [processPages, hconv, process_image_with_gpt4_vision, hapi, ih]

theorem indexStep_frame (st : Sys) (name : String) :
    (indexStep st name).cacheReads = st.cacheReads ∧
    (indexStep st name).banners = st.banners ∧
    (indexStep st name).processed_cache = st.processed_cache := by
  unfold indexStep
  by_cases h : (Cache.lookup st.indexed_files name).isSome
  · simp [h]
  · simp [h]

theorem foldl_indexStep_frame :
    ∀ (l : List String) (s : Sys),
      (l.foldl indexStep s).cacheReads = s.cacheReads ∧
      (l.foldl indexStep s).banners = s.banners ∧
      (l.foldl indexStep s).processed_cache = s.processed_cache := by
  intro l
  induction l with
  | nil => intro s; exact ⟨rfl, rfl, rfl⟩
  | cons a l ih =>
    intro s
    refine ⟨((ih (indexStep s a)).1).trans (indexStep_frame s a).1,
            ((ih (indexStep s a)).2.1).trans (indexStep_frame s a).2.1,
            ((ih (indexStep s a)).2.2).trans (indexStep_frame s a).2.2⟩

theorem index_pdf_files_frame (s : Sys) :
    (index_pdf_files s).cacheReads = s.cacheReads ∧
    (index_pdf_files s).banners = s.banners ∧
    (index_pdf_files s).processed_cache = s.processed_cache := by
  unfold index_pdf_files
  by_cases h : s.dataDirExists = false
  · simp [h]
  · simp [h, foldl_indexStep_frame]

theorem pageTexts_eq_nil (env : Env) (tag : String) (pages : List Nat)
    (hfail : ∀ page ∈ pages, ∀ image, env.convert page = Except.ok image →
      visionResult env image tag = none) :
    pageTexts env tag pages = [] := by
  rw [pageTexts, List.filterMap_eq_nil_iff]
  intro page hp
  cases hconv : env.convert page with
  | error e => simp [hconv]
  | ok image => simp [hconv, hfail page hp image hconv]

/-- A starting state for concrete runs: empty caches, no cache file, the
data directory present and empty, no banners, all counters zero. -/
def sInit : Sys :=
  { processed_cache := [], indexed_files := [], cacheFile := none,
    dataDirExists := true, dataDirPdfs := [], banners := [],
    apiCalls := 0, cacheReads := 0, pdfCalls := 0 }

/-- A concrete healthy environment: every PDF opens with two pages, every
page converts, and the API answers with text mentioning the tag. -/
def envOk : Env :=
  { openDoc := fun _ => Except.ok [0, 1],
    convert := fun page => Except.ok page,
    encode := fun _ => "base64jpeg",
    api := fun _ tag => Except.ok (some ("news about " ++ tag)) }

/-- An environment whose API always raises. -/
def envApiFail : Env :=
  { envOk with api := fun _ _ => Except.error "boom" }

/-- An environment in which opening any PDF raises. -/
def envOpenFail : Env :=
  { envOk with openDoc := fun _ => Except.error "cannot open" }

theorem append_cons_inj_of_not_mem {c : Char} :
    ∀ (a1 a2 b1 b2 : List Char), c ∉ a1 → c ∉ a2 →
      a1 ++ c :: b1 = a2 ++ c :: b2 → a1 = a2 ∧ b1 = b2 := by
  intro a1
  induction a1 with
  | nil =>
    intro a2 b1 b2 _ h2 h
    cases a2 with
    | nil => simpa using h
    | cons x xs =>
      rw [List.nil_append, List.cons_append] at h
      injection h with hx _
      rw [← hx] at h2
      exact absurd (List.mem_cons_self c xs) h2
  | cons x xs ih =>
    intro a2 b1 b2 h1 h2 h
    cases a2 with
    | nil =>
      rw [List.nil_append, List.cons_append] at h
      injection h with hx _
      rw [hx] at h1
      exact absurd (List.mem_cons_self c xs) h1
    | cons y ys =>
      rw [List.cons_append, List.cons_append] at h
      injection h with hx hrest
      subst hx
      have h1' : c ∉ xs := fun hm => h1 (List.mem_cons_of_mem x hm)
      have h2' : c ∉ ys := fun hm => h2 (List.mem_cons_of_mem x hm)
      obtain ⟨ha, hb⟩ := ih ys b1 b2 h1' h2' hrest
      exact ⟨by rw [ha], hb⟩

theorem cache_key_inj (p1 t1 p2 t2 : String)
    (h1 : '_' ∉ t1.data) (h2 : '_' ∉ t2.data)
    (h : cache_key p1 t1 = cache_key p2 t2) : p1 = p2 ∧ t1 = t2 := by
  have hu : ("_" : String).data = ['_'] := rfl
  have hd : p1.data ++ '_' :: t1.data = p2.data ++ '_' :: t2.data := by
    have hc := congrArg String.data h
    simpa [cache_key, String.data_append, hu, List.append_assoc,
           List.singleton_append] using hc
  have hrev : t1.data.reverse ++ '_' :: p1.data.reverse =
      t2.data.reverse ++ '_' :: p2.data.reverse := by
    have hc := congrArg List.reverse hd
    simpa [List.reverse_append, List.reverse_cons, List.append_assoc,
           List.singleton_append] using hc
  have h1' : '_' ∉ t1.data.reverse := by simpa using h1
  have h2' : '_' ∉ t2.data.reverse := by simpa using h2
  obtain ⟨ht, hp⟩ := append_cons_inj_of_not_mem _ _ _ _ h1' h2' hrev
  exact ⟨String.ext (List.reverse_injective hp),
         String.ext (List.reverse_injective ht)⟩

/-- C1: when the composite key "<path>_<tag>" is already in the processed
cache, process_pdf returns the cached response string, issues no API
request (the apiCalls counter, incremented on every
process_image_with_gpt4_vision run, is unchanged), and leaves the cache
and the cache file untouched. -/
theorem C1_cache_hit_no_api_call (env : Env) (pdf_path tag : String)
    (s : Sys) (v : String)
    (h : Cache.lookup s.processed_cache (cache_key pdf_path tag) = some v) :
    (process_pdf env pdf_path tag s).1 = some v ∧
    (process_pdf env pdf_path tag s).2.apiCalls = s.apiCalls ∧
    (process_pdf env pdf_path tag s).2.processed_cache = s.processed_cache ∧
    (process_pdf env pdf_path tag s).2.cacheFile = s.cacheFile := by
  rw [process_pdf_hit env pdf_path tag s v h]
  exact ⟨rfl, rfl, rfl, rfl⟩

/-- Witness for C1: a concrete cache hit. -/
theorem C1_cache_hit_no_api_call_witness :
    (process_pdf envOk "a" "b"
        { sInit with processed_cache := [("a_b", "resp")] }).1 = some "resp" ∧
    (process_pdf envOk "a" "b"
        { sInit with processed_cache := [("a_b", "resp")] }).2.apiCalls = 0 :=
  ⟨(C1_cache_hit_no_api_call envOk "a" "b"
      { sInit with processed_cache := [("a_b", "resp")] } "resp" (by decide)).1,
   (C1_cache_hit_no_api_call envOk "a" "b"
      { sInit with processed_cache := [("a_b", "resp")] } "resp" (by decide)).2.1⟩

/-- C2: writing the in-memory cache mapping with save_cache and reloading
the cache file with load_cache yields the same mapping. -/
theorem C2_cache_round_trip (s : Sys) :
    load_cache_val (save_cache s).cacheFile = some s.processed_cache := by
  simp [save_cache, load_cache_val, decode_encode]

/-- C3 as stated is false: two distinct (path, tag) pairs can build the
same composite key; ("a_b", "c") and ("a", "b_c") both produce "a_b_c". -/
theorem C3_counterexample :
    cache_key "a_b" "c" = cache_key "a" "b_c" ∧
    ("a_b", "c") ≠ (("a", "b_c") : String × String) :=
  ⟨rfl, by decide⟩

/-- C3 amended: the composite key identifies the request uniquely as long
as the tags contain no underscore: two pairs with underscore-free tags that
build the same key are equal. -/
theorem C3_amended_key_unique (p1 t1 p2 t2 : String)
    (h1 : '_' ∉ t1.data) (h2 : '_' ∉ t2.data)
    (h : cache_key p1 t1 = cache_key p2 t2) :
    p1 = p2 ∧ t1 = t2 :=
  cache_key_inj p1 t1 p2 t2 h1 h2 h

/-- Witness for the amended C3 at a concrete input. -/
theorem C3_amended_key_unique_witness :
    ("data/x.pdf" : String) = "data/x.pdf" ∧ ("cricket" : String) = "cricket" :=
  C3_amended_key_unique "data/x.pdf" "cricket" "data/x.pdf" "cricket"
    (by decide) (by decide) rfl

/-- C4 as stated is false: with the data directory missing, index_pdf_files
returns without raising but shows no warning or any message at all (it
silently creates the directory). -/
theorem C4_counterexample :
    ({ sInit with dataDirExists := false }).dataDirExists = false ∧
    (index_pdf_files { sInit with dataDirExists := false }).banners = [] :=
  ⟨rfl, rfl⟩

/-- C4 amended: when the data directory is missing at startup,
index_pdf_files completes without raising: it creates the directory,
indexes nothing and shows no warning (the state changes only in
dataDirExists). -/
theorem C4_amended_no_crash_no_warning (s : Sys) (h : s.dataDirExists = false) :
    index_pdf_files s = { s with dataDirExists := true } := by
  simp [index_pdf_files, h]

/-- Witness for the amended C4 at a concrete input. -/
theorem C4_amended_no_crash_no_warning_witness :
    index_pdf_files { sInit with dataDirExists := false } =
      { sInit with dataDirExists := true } :=
  C4_amended_no_crash_no_warning { sInit with dataDirExists := false } rfl

/-- C5: pressing the search button with an empty search tag rejects the
request with an error banner before any processing: process_pdf is never
invoked (pdfCalls unchanged) and no API request is issued (apiCalls
unchanged). -/
theorem C5_empty_tag_rejected (env : Env) (selected_files : List String)
    (s : Sys) :
    (search_button env selected_files "" s).pdfCalls = s.pdfCalls ∧
    (search_button env selected_files "" s).apiCalls = s.apiCalls ∧
    ∃ msg, (search_button env selected_files "" s).banners =
      s.banners ++ [msg] := by
  cases selected_files with
  | nil => exact ⟨rfl, rfl, "Please select at least one file!", rfl⟩
  | cons f rest => exact ⟨rfl, rfl, "Please enter a search tag!", rfl⟩

/-- C6: on a cache miss over an n-page PDF (opening and page conversion
succeed), exactly one hosted-API chat request is issued per page, n in
total, and the returned result is the newline-joined concatenation of the
per-page text responses. -/
theorem C6_one_request_per_page (env : Env) (pdf_path tag : String) (s : Sys)
    (pages : List Nat)
    (hmiss : Cache.lookup s.processed_cache (cache_key pdf_path tag) = none)
    (hopen : env.openDoc pdf_path = Except.ok pages)
    (hconv : ∀ page ∈ pages, (env.convert page).isOk) :
    (process_pdf env pdf_path tag s).2.apiCalls = s.apiCalls + pages.length ∧
    (process_pdf env pdf_path tag s).1 =
      some (String.intercalate "\n" (pageTexts env tag pages)) := by
  rw [process_pdf_miss_ok env pdf_path tag s pages hmiss hopen hconv]
  exact ⟨rfl, rfl⟩

/-- Witness for C6: a concrete two-page run issues two requests. -/
theorem C6_one_request_per_page_witness :
    (process_pdf envOk "data/x.pdf" "cricket" sInit).2.apiCalls = 0 + 2 ∧
    (process_pdf envOk "data/x.pdf" "cricket" sInit).1 =
      some (String.intercalate "\n" (pageTexts envOk "cricket" [0, 1])) :=
  C6_one_request_per_page envOk "data/x.pdf" "cricket" sInit [0, 1]
    rfl rfl (by decide)

/-- C7: the cache file is read exactly once at startup, and after
process_pdf completes a request on a cache miss, the on-disk cache file
holds the JSON dump of the current in-memory cache, whose entry under the
request's key is exactly the response returned. -/
theorem C7_cache_file_lifecycle :
    (∀ s : Sys, (startup s).cacheReads = s.cacheReads + 1) ∧
    (∀ (env : Env) (pdf_path tag : String) (s : Sys) (pages : List Nat),
      Cache.lookup s.processed_cache (cache_key pdf_path tag) = none →
      env.openDoc pdf_path = Except.ok pages →
      (∀ page ∈ pages, (env.convert page).isOk) →
      (process_pdf env pdf_path tag s).2.cacheFile =
        some (encodeCache (process_pdf env pdf_path tag s).2.processed_cache) ∧
      Cache.lookup (process_pdf env pdf_path tag s).2.processed_cache
        (cache_key pdf_path tag) = (process_pdf env pdf_path tag s).1) := by
  constructor
  · intro s
    unfold startup
    exact (index_pdf_files_frame _).1
  · intro env pdf_path tag s pages hmiss hopen hconv
    rw [process_pdf_miss_ok env pdf_path tag s pages hmiss hopen hconv]
    refine ⟨rfl, ?_⟩
    exact Cache.lookup_insert_self _ _ _

/-- Witness for C7 at concrete inputs. -/
theorem C7_cache_file_lifecycle_witness :
    (startup sInit).cacheReads = 0 + 1 ∧
    (process_pdf envOk "data/x.pdf" "cricket" sInit).2.cacheFile =
      some (encodeCache
        (process_pdf envOk "data/x.pdf" "cricket" sInit).2.processed_cache) :=
  ⟨C7_cache_file_lifecycle.1 sInit,
   (C7_cache_file_lifecycle.2 envOk "data/x.pdf" "cricket" sInit [0, 1]
      rfl rfl (by decide)).1⟩

/-- C8: every failure is caught where the source catches it and surfaced as
an st.error banner containing the exception text, the failing operation
returning None, with no retry: an API exception adds the GPT-4-Vision
banner after exactly one request; an exception opening the PDF adds the
PDF-processing banner with no request; a missing file name in the search
loop adds the top-level banner and aborts the loop. -/
theorem C8_failures_surfaced :
    (∀ (env : Env) (image : Nat) (tag : String) (s : Sys) (e : String),
      env.api (env.encode image) tag = Except.error e →
      process_image_with_gpt4_vision env image tag s =
        (none, { s with apiCalls := s.apiCalls + 1,
                        banners := s.banners ++
                          ["Error in GPT-4 Vision processing: " ++ e] })) ∧
    (∀ (env : Env) (pdf_path tag : String) (s : Sys) (e : String),
      Cache.lookup s.processed_cache (cache_key pdf_path tag) = none →
      env.openDoc pdf_path = Except.error e →
      process_pdf env pdf_path tag s =
        (none, { s with pdfCalls := s.pdfCalls + 1,
                        banners := s.banners ++
                          ["Error in PDF processing: " ++ e] })) ∧
    (∀ (env : Env) (tag filename : String) (rest : List String) (s : Sys),
      Cache.lookup s.indexed_files filename = none →
      searchLoop env tag (filename :: rest) s =
        { s with banners := s.banners ++
            ["An error occurred: " ++ keyErrorStr filename] }) := by
  refine ⟨?_, ?_, ?_⟩
  · intro env image tag s e h
    simp [process_image_with_gpt4_vision, h]
  · intro env pdf_path tag s e hmiss hopen
    simp [process_pdf, hmiss, hopen]
  · intro env tag filename rest s h
    simp [searchLoop, h]

/-- Witness for C8: the three failure sites at concrete inputs. -/
theorem C8_failures_surfaced_witness :
    process_image_with_gpt4_vision envApiFail 0 "cricket" sInit =
      (none, { sInit with apiCalls := sInit.apiCalls + 1,
                          banners := sInit.banners ++
                            ["Error in GPT-4 Vision processing: boom"] }) ∧
    process_pdf envOpenFail "data/x.pdf" "cricket" sInit =
      (none, { sInit with pdfCalls := sInit.pdfCalls + 1,
                          banners := sInit.banners ++
                            ["Error in PDF processing: cannot open"] }) ∧
    searchLoop envOk "cricket" ["missing.pdf"] sInit =
      { sInit with banners := sInit.banners ++
          ["An error occurred: " ++ keyErrorStr "missing.pdf"] } :=
  ⟨C8_failures_surfaced.1 envApiFail 0 "cricket" sInit "boom" rfl,
   C8_failures_surfaced.2.1 envOpenFail "data/x.pdf" "cricket" sInit
     "cannot open" rfl rfl,
   C8_failures_surfaced.2.2 envOk "cricket" "missing.pdf" [] sInit rfl⟩

/-- C9: when every page's vision call yields no text, process_pdf still
stores the empty string under the request's key, persists it to the cache
file, and a subsequent identical request answers the empty string from the
cache without issuing any further API request. -/
theorem C9_all_pages_fail_caches_empty (env : Env) (pdf_path tag : String)
    (s : Sys) (pages : List Nat)
    (hmiss : Cache.lookup s.processed_cache (cache_key pdf_path tag) = none)
    (hopen : env.openDoc pdf_path = Except.ok pages)
    (hconv : ∀ page ∈ pages, (env.convert page).isOk)
    (hfail : ∀ page ∈ pages, ∀ image, env.convert page = Except.ok image →
      visionResult env image tag = none) :
    (process_pdf env pdf_path tag s).1 = some "" ∧
    Cache.lookup (process_pdf env pdf_path tag s).2.processed_cache
      (cache_key pdf_path tag) = some "" ∧
    (process_pdf env pdf_path tag s).2.cacheFile =
      some (encodeCache (process_pdf env pdf_path tag s).2.processed_cache) ∧
    (process_pdf env pdf_path tag (process_pdf env pdf_path tag s).2).1 =
      some "" ∧
    (process_pdf env pdf_path tag (process_pdf env pdf_path tag s).2).2.apiCalls =
      (process_pdf env pdf_path tag s).2.apiCalls := by
  have htexts := pageTexts_eq_nil env tag pages hfail
  have hrun := process_pdf_miss_ok env pdf_path tag s pages hmiss hopen hconv
  have hempty : String.intercalate "\n" (pageTexts env tag pages) = "" := by
    rw [htexts]
    rfl
  have hcache : (missState env pdf_path tag s pages).processed_cache =
      Cache.insert s.processed_cache (cache_key pdf_path tag) "" := by
    simp [missState, hempty]
  have hlook : Cache.lookup (missState env pdf_path tag s pages).processed_cache
      (cache_key pdf_path tag) = some "" := by
    rw [hcache]
    exact Cache.lookup_insert_self _ _ _
  have hhit := process_pdf_hit env pdf_path tag
    (missState env pdf_path tag s pages) "" hlook
  rw [hrun]
  refine ⟨by rw [hempty], hlook, rfl, ?_, ?_⟩
  · rw [hhit]
  · rw [hhit]

/-- Witness for C9: with an API that always raises, a two-page PDF is
cached as the empty string. -/
theorem C9_all_pages_fail_caches_empty_witness :
    (process_pdf envApiFail "data/x.pdf" "cricket" sInit).1 = some "" ∧
    Cache.lookup
      (process_pdf envApiFail "data/x.pdf" "cricket" sInit).2.processed_cache
      (cache_key "data/x.pdf" "cricket") = some "" :=
  ⟨(C9_all_pages_fail_caches_empty envApiFail "data/x.pdf" "cricket" sInit
      [0, 1] rfl rfl (by decide) (fun _ _ _ _ => rfl)).1,
   (C9_all_pages_fail_caches_empty envApiFail "data/x.pdf" "cricket" sInit
      [0, 1] rfl rfl (by decide) (fun _ _ _ _ => rfl)).2.1⟩

/-- C10: whenever process_pdf returns None (an exception was caught by its
handler), neither the in-memory processed cache nor the cache file is
modified. -/
theorem C10_error_leaves_cache_unchanged (env : Env) (pdf_path tag : String)
    (s : Sys)
    (h : (process_pdf env pdf_path tag s).1 = none) :
    (process_pdf env pdf_path tag s).2.processed_cache = s.processed_cache ∧
    (process_pdf env pdf_path tag s).2.cacheFile = s.cacheFile := by
  cases hl : Cache.lookup s.processed_cache (cache_key pdf_path tag) with
  | some v =>
    rw [process_pdf_hit env pdf_path tag s v hl] at h
    simp at h
  | none =>
    cases hopen : env.openDoc pdf_path with
    | error e => simp [process_pdf, hl, hopen]
    | ok pages =>
      rcases hpp : processPages env tag pages []
        { s with pdfCalls := s.pdfCalls + 1 } with ⟨r, s'⟩
      have hframe := processPages_cache_frame env tag pages []
        { s with pdfCalls := s.pdfCalls + 1 }
      rw [hpp] at hframe
      cases r with
      | error e =>
        refine ⟨?_, ?_⟩
        · simp [process_pdf, hl, hopen, hpp]
          exact hframe.1
        · simp [process_pdf, hl, hopen, hpp]
          exact hframe.2
      | ok results =>
        simp [process_pdf, hl, hopen, hpp] at h

/-- Witness for C10: a failing open leaves both caches untouched. -/
theorem C10_error_leaves_cache_unchanged_witness :
    (process_pdf envOpenFail "data/x.pdf" "cricket" sInit).2.processed_cache =
      sInit.processed_cache ∧
    (process_pdf envOpenFail "data/x.pdf" "cricket" sInit).2.cacheFile =
      sInit.cacheFile :=
  C10_error_leaves_cache_unchanged envOpenFail "data/x.pdf" "cricket" sInit rfl

end GujPaperTagger
